import Mathlib

/-!
Verification of the CRM API service (src/main.py) against its
natural-language specification.

The service is a thin HTTP façade over an external record store.  Each
handler is embedded as a pure Lean function of the rows the store
delivered: a fetched row is a record whose optional fields are `Option`
values (`none` = the field is absent from the fetched dictionary), and
The Python `dict.get(k, d)` becomes `Option.getD`, while a bare
subscription `row[k]` becomes a fallible lookup returning
`Except String`.  The external record store itself is out of scope and
appears only as the data the handlers receive or the parameter sets they
send to it.
-/

namespace CRM

/-- A fetched candidate row (table `db_candidates`).  Only the fields the
handlers inspect are modelled; each is optional because a fetched
dictionary may lack it. -/
structure CandRow where
  id : Option Int := none
  executive_id : Option String := none
  lead_heat_score : Option Int := none
  lead_status : Option String := none
  follow_up_at : Option String := none
  created_at : Option String := none
  state : Option String := none
  category : Option String := none
  gender : Option String := none
  bargain_type : Option String := none
deriving Repr, DecidableEq

/-- A fetched call-log row (table `db_call_logs`). -/
structure CallRow where
  action_type : Option String := none
deriving Repr, DecidableEq

/-- A fetched offer-sent row (table `db_offers_sent`). -/
structure OfferRow where
  offer_id : Option String := none
deriving Repr, DecidableEq

/-- The dashboard summary object returned by `GET /executive/dashboard`. -/
structure DashboardSummary where
  total_assigned : Nat
  hot_leads : Nat
  followups_today : Nat
  fresh : Nat
  bargainers : Nat
deriving Repr, DecidableEq

/-- The Python `s.startswith(pre)`: a pure prefix test, modelled on the
underlying character list. -/
def pyStartsWith (s pre : String) : Bool :=
  pre.data.isPrefixOf s.data

/-- The Python truthiness-and-prefix test of `get_dashboard`:
`x.get("follow_up_at") and str(x["follow_up_at"]).startswith(today)`.
An absent value and the empty string are falsy, so they skip the prefix
test. -/
def followupPred (today : String) (x : CandRow) : Bool :=
  match x.follow_up_at with
  | some s => decide (s ≠ "") && pyStartsWith s today
  | none => false

/-- Embedding of the handler `get_dashboard` (src/main.py lines 99-130):
the summary computed from the candidate rows fetched for one executive
and the reference date `today`. -/
def get_dashboard (data : List CandRow) (today : String) : DashboardSummary :=
  { total_assigned := data.length
    hot_leads := (data.filter (fun x => 70 ≤ x.lead_heat_score.getD 0)).length
    followups_today := (data.filter (followupPred today)).length
    fresh := (data.filter (fun x => x.lead_status == some "fresh")).length
    bargainers := (data.filter (fun x => x.lead_status == some "bargaining")).length }

/-- The performance summary object returned by `GET /executive/performance`. -/
structure PerfSummary where
  calls : Nat
  connected : Nat
  not_lifted : Nat
  offers_sent : Nat
deriving Repr, DecidableEq

/-- The list comprehension `len([c for c in calls if c["action_type"] == v])`:
a bare subscription, so a row lacking the field raises a key error. -/
def countAction : List CallRow → String → Except String Nat
  | [], _ => .ok 0
  | c :: rest, v =>
    match c.action_type with
    | none => .error "KeyError: action_type"
    | some a => (countAction rest v).map (fun n => (if a = v then 1 else 0) + n)

/-- Embedding of the handler `exec_perf` (src/main.py lines 368-395):
the performance summary computed from the call-log and offer rows fetched
for one executive.  The two comprehensions subscript `action_type`
directly, so they fail on a row lacking that field. -/
def exec_perf (callsData : List CallRow) (offersData : List OfferRow) :
    Except String PerfSummary :=
  match countAction callsData "connected", countAction callsData "not_lifted" with
  | .ok c, .ok n =>
      .ok { calls := callsData.length
            connected := c
            not_lifted := n
            offers_sent := offersData.length }
  | .error e, _ => .error e
  | .ok _, .error e => .error e

/-- The spec reading of the follow-up predicate: the follow-up
timestamp, as a string, starts with the reference date; an absent
timestamp never counts. -/
def followupSpecPred (today : String) (x : CandRow) : Bool :=
  (x.follow_up_at.map (fun s => pyStartsWith s today)).getD false

/-- The predicate set the simple lead list sends to the record store:
an equality constraint on the executive id, plus the optional constraints
`lead_list_get` adds behind Python truthiness tests. -/
structure SimpleQuery where
  executive_id : String
  status_eq : Option String
  heat_gte : Option Int
  follow_up_like : Option String
deriving Repr, DecidableEq

/-- Query construction of `lead_list_get` (src/main.py lines 144-159):
`if status:` and `if heat_min:` are Python truthiness tests, so an empty
string and 0 add no constraint; `follow_up_due == "today"` adds a
`like "<today>%"` constraint. -/
def buildSimpleQuery (executive_id : String) (status : Option String)
    (heat_min : Option Int) (follow_up_due : Option String) (today : String) :
    SimpleQuery :=
  { executive_id := executive_id
    status_eq := match status with
      | some s => if s = "" then none else some s
      | none => none
    heat_gte := match heat_min with
      | some h => if h = 0 then none else some h
      | none => none
    follow_up_like := if follow_up_due == some "today" then some (today ++ "%") else none }

/-- The in-memory sort step shared by `lead_list_get` (line 165-166) and
`lead_list_post` (line 197-198): when the directive is "newest", a stable
sort descending on `x.get("created_at", "")` (the Python `sorted` with
`reverse=True` is stable); any other directive leaves the fetched order
untouched. -/
def sortLeads (sortParam : Option String) (leads : List CandRow) : List CandRow :=
  if sortParam == some "newest" then
    leads.mergeSort (fun a b => decide (b.created_at.getD "" ≤ a.created_at.getD ""))
  else
    leads

/-- The response shape of both lead-list handlers. -/
structure LeadListResponse where
  executive_id : String
  lead_count : Nat
  leads : List CandRow
deriving Repr, DecidableEq

/-- Embedding of the handler `lead_list_get` (src/main.py lines 136-172),
parameterised by the record store (a function from the issued query to
the rows it delivers). -/
def lead_list_get (store : SimpleQuery → List CandRow) (executive_id : String)
    (status : Option String) (heat_min : Option Int) (follow_up_due : Option String)
    (sortParam : Option String) (today : String) : LeadListResponse :=
  let leads := sortLeads sortParam
    (store (buildSimpleQuery executive_id status heat_min follow_up_due today))
  { executive_id := executive_id, lead_count := leads.length, leads := leads }

/-- The request body of `POST /executive/leads` (src/main.py lines 29-39),
with the pydantic defaults: every optional field defaults to absent except
`max_heat`, which defaults to 100. -/
structure FilterPayload where
  executive_id : String
  state : Option String := none
  category : Option String := none
  gender : Option String := none
  status : Option String := none
  bargain_type : Option String := none
  min_heat : Option Int := none
  max_heat : Option Int := some 100
  prospect_percent : Option Int := none
  sort_by : Option String := none
deriving Repr, DecidableEq

/-- The named parameter set sent to the remote procedure
`get_leads_filtered`. -/
structure FilterParams where
  p_executive_id : String
  p_state : Option String
  p_category : Option String
  p_gender : Option String
  p_status : Option String
  p_bargain : Option String
  p_min_heat : Option Int
  p_max_heat : Option Int
deriving Repr, DecidableEq

/-- Parameter forwarding of `lead_list_post` (src/main.py lines 182-191):
each payload field is passed through unchanged; `sort_by` and
`prospect_percent` are not forwarded. -/
def buildFilterParams (payload : FilterPayload) : FilterParams :=
  { p_executive_id := payload.executive_id
    p_state := payload.state
    p_category := payload.category
    p_gender := payload.gender
    p_status := payload.status
    p_bargain := payload.bargain_type
    p_min_heat := payload.min_heat
    p_max_heat := payload.max_heat }

/-- Embedding of the handler `lead_list_post` (src/main.py lines 178-204),
parameterised by the remote procedure (a function from the forwarded
parameter set to the rows it delivers). -/
def lead_list_post (rpc : FilterParams → List CandRow) (payload : FilterPayload) :
    LeadListResponse :=
  let leads := sortLeads payload.sort_by (rpc (buildFilterParams payload))
  { executive_id := payload.executive_id, lead_count := leads.length, leads := leads }

/-- An absent parameter is no constraint; a present one is an equality
constraint on the field of the row. -/
def matchEq (param : Option String) (field : Option String) : Bool :=
  match param with
  | none => true
  | some s => field == some s

/-- Modelled from the spec: the stored procedure `get_leads_filtered` lives
in the record store and is not under src/; per the spec it interprets an
absent parameter as unconstrained and applies the present ones as
equality / heat-range predicates scoped to the executive id. -/
def get_leads_filtered (table : List CandRow) (q : FilterParams) : List CandRow :=
  table.filter (fun r =>
    r.executive_id == some q.p_executive_id
    && matchEq q.p_state r.state
    && matchEq q.p_category r.category
    && matchEq q.p_gender r.gender
    && matchEq q.p_status r.lead_status
    && matchEq q.p_bargain r.bargain_type
    && (match q.p_min_heat with
        | none => true
        | some h => decide (h ≤ r.lead_heat_score.getD 0))
    && (match q.p_max_heat with
        | none => true
        | some h => decide (r.lead_heat_score.getD 0 ≤ h)))

/-- An executive row fetched from `db_executives`, kept as the raw
dictionary (field name to value) so that the Python dict operations
`.get(k, d)` and truthiness are faithful. -/
abbrev ExecDict := List (String × String)

/-- The Python `d.get(k, dflt)` on an executive dictionary. -/
def dictGet (d : ExecDict) (k dflt : String) : String :=
  match d.find? (fun kv => kv.1 == k) with
  | some kv => kv.2
  | none => dflt

/-- Embedding of the handler `get_profile` (src/main.py lines 83-93):
`return res.data or {}`, where a missing row makes `res.data` absent and
the Python `or` replaces a falsy (absent or empty) value by `{}`. -/
def get_profile (fetched : Option ExecDict) : ExecDict :=
  match fetched with
  | some d => if d.isEmpty then [] else d
  | none => []

/-- The composite response of `GET /lead/detail`; the timeline and offers
payloads are passed through untouched, so their type is opaque. -/
structure LeadDetailResponse (τ ω : Type) where
  candidate : Option CandRow
  timeline : τ
  offers : ω

/-- Embedding of the handler `lead_detail` (src/main.py lines 242-260):
the candidate fetched by `maybe_single()` (absent when no row matches) and
the two remote-procedure payloads are returned as-is. -/
def lead_detail {τ ω : Type} (cand : Option CandRow) (timelineData : τ)
    (offersData : ω) : LeadDetailResponse τ ω :=
  { candidate := cand, timeline := timelineData, offers := offersData }

/-- The response shape of `GET /manager/executive/leads`. -/
structure ManagerLeadsResponse where
  exec_name : String
  assigned_count : Nat
  leads : List CandRow
deriving Repr, DecidableEq

/-- Embedding of the handler `manager_leads` (src/main.py lines 210-236):
`exec_profile.data.get("name", "")` subscripts the fetched profile, so an
absent profile (no row for the executive id) raises an attribute error;
the candidate list tolerates absence via `or []`. -/
def manager_leads (execProfileData : Option ExecDict)
    (leadsData : Option (List CandRow)) : Except String ManagerLeadsResponse :=
  match execProfileData with
  | none => .error "AttributeError: NoneType has no attribute get"
  | some p =>
      .ok { exec_name := dictGet p "name" ""
            assigned_count := (leadsData.getD []).length
            leads := leadsData.getD [] }

/-- The request body of `POST /manager/assign-leads` (src/main.py
lines 73-77). -/
structure BulkAssignPayload where
  assign_from : String
  assign_to : String
  candidate_ids : List Int
  reason : Option String := none
deriving Repr, DecidableEq

/-- The named parameter set of one `assign_lead` remote call. -/
structure AssignCall where
  p_candidate_id : Int
  p_assign_to : String
  p_assign_from : String
  p_reason : Option String
deriving Repr, DecidableEq

/-- The parameters `assign_bulk` sends for one candidate id
(src/main.py lines 355-360). -/
def mkAssignCall (payload : BulkAssignPayload) (cid : Int) : AssignCall :=
  { p_candidate_id := cid
    p_assign_to := payload.assign_to
    p_assign_from := payload.assign_from
    p_reason := payload.reason }

/-- Embedding of the handler `assign_bulk` (src/main.py lines 351-362):
one `assign_lead` remote call per candidate id, issued sequentially in
list order.  The per-call outcome (success or failure) is
modelled by an oracle and recorded in the trace; the handler never
inspects it and returns `{assigned: n}` where `n` is the length of the
candidate-id list. -/
def assign_bulk (payload : BulkAssignPayload) (outcome : AssignCall → Bool) :
    List (AssignCall × Bool) × Nat :=
  ((payload.candidate_ids.map (mkAssignCall payload)).map (fun c => (c, outcome c)),
    payload.candidate_ids.length)

theorem countAction_ok_of_present (v : String) :
    ∀ (calls : List CallRow), (∀ c ∈ calls, c.action_type ≠ none) →
      countAction calls v = .ok (calls.countP (fun c => c.action_type == some v))
  | [], _ => by simp [countAction]
  | c :: rest, h => by
    match hc : c.action_type with
    | none => exact absurd hc (h c (List.mem_cons_self c rest))
    | some a =>
      have ih := countAction_ok_of_present v rest
        (fun d hd => h d (List.mem_cons_of_mem c hd))
      simp only [countAction, hc, ih, Except.map, List.countP_cons]
      by_cases hav : a = v
      · simp [hav, Nat.add_comm]
      · simp [hav, beq_iff_eq, Option.some_inj, hc]

/-- C1: for every list of candidate rows fetched for an executive, the
dashboard summary satisfies: `total_assigned` is the number of rows,
`hot_leads` counts the rows whose heat score (absent counting as 0) is at
least 70, `fresh` counts the rows with status "fresh", and `bargainers`
counts the rows with status "bargaining". -/
theorem dashboard_counts_spec (data : List CandRow) (today : String) :
    (get_dashboard data today).total_assigned = data.length
    ∧ (get_dashboard data today).hot_leads
        = data.countP (fun x => decide (70 ≤ x.lead_heat_score.getD 0))
    ∧ (get_dashboard data today).fresh
        = data.countP (fun x => x.lead_status == some "fresh")
    ∧ (get_dashboard data today).bargainers
        = data.countP (fun x => x.lead_status == some "bargaining") := by
  refine ⟨rfl, ?_, ?_, ?_⟩ <;>
    simp [get_dashboard, List.countP_eq_length_filter]

/-- C3: the empty row set yields the all-zero dashboard summary and the
all-zero performance summary. -/
theorem empty_rows_all_zero (today : String) :
    get_dashboard [] today
        = { total_assigned := 0, hot_leads := 0, followups_today := 0
            fresh := 0, bargainers := 0 }
    ∧ exec_perf [] []
        = .ok { calls := 0, connected := 0, not_lifted := 0, offers_sent := 0 } := by
  exact ⟨rfl, rfl⟩

theorem pyStartsWith_empty_left {pre : String} (h : pre ≠ "") :
    pyStartsWith "" pre = false := by
  rw [pyStartsWith]
  match hd : pre.data with
  | [] =>
    exact absurd (by cases pre; cases hd; rfl) h
  | c :: cs =>
    rfl

theorem followupPred_eq_spec {today : String} (h : today ≠ "") (x : CandRow) :
    followupPred today x = followupSpecPred today x := by
  rw [followupPred, followupSpecPred]
  match x.follow_up_at with
  | none => rfl
  | some s =>
    by_cases hs : s = ""
    · simp [hs, pyStartsWith_empty_left h]
    · simp [hs]

theorem dashboard_followups_eq_countP {today : String} (h : today ≠ "")
    (data : List CandRow) :
    (get_dashboard data today).followups_today
      = data.countP (followupSpecPred today) := by
  have : data.filter (followupPred today) = data.filter (followupSpecPred today) :=
    List.filter_congr (fun x _ => followupPred_eq_spec h x)
  simp [get_dashboard, this, List.countP_eq_length_filter]

/-- C4: `followups_today` is a pure string-prefix match of the follow-up
timestamp against the (nonempty) reference date; replacing a counted
row timestamp by one that does not start with the date lowers the count
by exactly one, and a row with an absent or empty timestamp never
contributes. -/
theorem followups_today_spec (data : List CandRow) (today : String) (h : today ≠ "") :
    (get_dashboard data today).followups_today = data.countP (followupSpecPred today)
    ∧ (∀ (l1 l2 : List CandRow) (r r2 : CandRow),
        followupSpecPred today r = true → followupSpecPred today r2 = false →
        (get_dashboard (l1 ++ r :: l2) today).followups_today
          = (get_dashboard (l1 ++ r2 :: l2) today).followups_today + 1)
    ∧ (∀ (l1 l2 : List CandRow) (r : CandRow),
        r.follow_up_at = none ∨ r.follow_up_at = some "" →
        (get_dashboard (l1 ++ r :: l2) today).followups_today
          = (get_dashboard (l1 ++ l2) today).followups_today) := by
  refine ⟨dashboard_followups_eq_countP h data, ?_, ?_⟩
  · intro l1 l2 r r2 hr hr2
    simp [dashboard_followups_eq_countP h, List.countP_append, List.countP_cons,
      hr, hr2]
    omega
  · intro l1 l2 r hr
    have hfalse : followupSpecPred today r = false := by
      rcases hr with h1 | h1 <;>
        simp [followupSpecPred, h1, pyStartsWith_empty_left h]
    simp [dashboard_followups_eq_countP h, List.countP_append, List.countP_cons,
      hfalse]

/-- Witness for C4 at a concrete reference date and row list. -/
theorem followups_today_spec_witness :
    (get_dashboard
      [{ follow_up_at := some "2026-10-12T09:00:00" },
       { follow_up_at := some "2026-11-01T09:00:00" },
       { follow_up_at := none }] "2026-10-12").followups_today = 1 := by
  rw [(followups_today_spec _ "2026-10-12" (by decide)).1]
  decide

/-- Counterexample to C2 as stated: a call-log row lacking the
`action_type` field makes the performance handler fail with a key error
instead of returning the counts. -/
theorem perf_missing_field_counterexample :
    exec_perf [{ action_type := none }] []
      = .error "KeyError: action_type" := rfl

/-- C2 (amended): the performance handler returns the connected and
not_lifted counts when every fetched call-log row carries the
`action_type` field, counting rows with any other action type in neither
category; a row lacking the field instead raises a key-lookup error. -/
theorem perf_counts_spec (callsData : List CallRow) (offersData : List OfferRow)
    (h : ∀ c ∈ callsData, c.action_type ≠ none) :
    exec_perf callsData offersData
      = .ok { calls := callsData.length
              connected := callsData.countP (fun c => c.action_type == some "connected")
              not_lifted := callsData.countP (fun c => c.action_type == some "not_lifted")
              offers_sent := offersData.length } := by
  rw [exec_perf, countAction_ok_of_present "connected" callsData h,
    countAction_ok_of_present "not_lifted" callsData h]

/-- Witness for the amended statement of C2 on a concrete row list. -/
theorem perf_counts_spec_witness :
    exec_perf
      [{ action_type := some "connected" }, { action_type := some "not_lifted" },
       { action_type := some "connected" }, { action_type := some "busy" }]
      [{ offer_id := some "o1" }]
      = .ok { calls := 4, connected := 2, not_lifted := 1, offers_sent := 1 } := by
  rw [perf_counts_spec _ _ (by decide)]
  rfl

/-- C5: the bulk-assignment handler issues exactly one `assign_lead`
remote call per candidate id, sequentially in list order, and answers
`{assigned: n}` with `n` the length of the id list, independently of the
individual call outcomes. -/
theorem bulk_assign_spec (payload : BulkAssignPayload) (outcome : AssignCall → Bool) :
    ((assign_bulk payload outcome).1.map Prod.fst
        = payload.candidate_ids.map (mkAssignCall payload))
    ∧ (assign_bulk payload outcome).1.length = payload.candidate_ids.length
    ∧ (assign_bulk payload outcome).2 = payload.candidate_ids.length
    ∧ ∀ outcome2 : AssignCall → Bool,
        (assign_bulk payload outcome2).2 = (assign_bulk payload outcome).2 := by
  refine ⟨?_, ?_, rfl, fun _ => rfl⟩
  · simp [assign_bulk, List.map_map, Function.comp]
  · simp [assign_bulk]

/-- Counterexample to C6 as stated: with every optional field of the
filter request left unset, the forwarded parameter set does not carry
"no constraint" for the max-heat predicate — it carries the default 100. -/
theorem filter_defaults_counterexample :
    (buildFilterParams { executive_id := "E1" }).p_max_heat ≠ none := by
  decide

/-- C6 (amended): with every optional field left unset, the forwarded
parameter set carries "no constraint" for state, category, gender,
status, bargain type and min-heat, but carries the default value 100 for
max-heat; since heat scores do not exceed 100, the call is still
equivalent to an unfiltered lookup scoped only by executive id. -/
theorem filter_defaults_spec (eid : String) (table : List CandRow)
    (h : ∀ r ∈ table, r.lead_heat_score.getD 0 ≤ 100) :
    buildFilterParams { executive_id := eid }
      = { p_executive_id := eid, p_state := none, p_category := none
          p_gender := none, p_status := none, p_bargain := none
          p_min_heat := none, p_max_heat := some 100 }
    ∧ get_leads_filtered table (buildFilterParams { executive_id := eid })
        = table.filter (fun r => r.executive_id == some eid) := by
  refine ⟨rfl, ?_⟩
  rw [get_leads_filtered]
  apply List.filter_congr
  intro r hr
  simp [buildFilterParams, matchEq, h r hr]

/-- Witness for the amended statement of C6 on a concrete table. -/
theorem filter_defaults_spec_witness :
    get_leads_filtered
      [{ executive_id := some "E1", lead_heat_score := some 80 },
       { executive_id := some "E2", lead_heat_score := some 90 }]
      (buildFilterParams { executive_id := "E1" })
      = [{ executive_id := some "E1", lead_heat_score := some 80 }] := by
  rw [(filter_defaults_spec "E1" _ (by decide)).2]
  decide

theorem newestLe_trans (a b c : CandRow)
    (h1 : decide (b.created_at.getD "" ≤ a.created_at.getD "") = true)
    (h2 : decide (c.created_at.getD "" ≤ b.created_at.getD "") = true) :
    decide (c.created_at.getD "" ≤ a.created_at.getD "") = true := by
  simp only [decide_eq_true_eq] at h1 h2 ⊢
  exact le_trans h2 h1

theorem newestLe_total (a b : CandRow) :
    (decide (b.created_at.getD "" ≤ a.created_at.getD "")
      || decide (a.created_at.getD "" ≤ b.created_at.getD "")) = true := by
  rcases le_total (b.created_at.getD "") (a.created_at.getD "") with h | h <;> simp [h]

theorem sortLeads_newest_eq_mergeSort (l : List CandRow) :
    sortLeads (some "newest") l
      = l.mergeSort (fun a b => decide (b.created_at.getD "" ≤ a.created_at.getD "")) := by
  rfl

/-- C7: with directive "newest" the returned list is a permutation of the
input, ordered descending on the `created_at` string, the sort is stable
(for every timestamp value, the rows carrying it appear in their input
order), and sorting twice equals sorting once; any other or absent
directive returns the fetched list unchanged. -/
theorem sort_newest_spec (l : List CandRow) (s : Option String) :
    (sortLeads (some "newest") l).Perm l
    ∧ (sortLeads (some "newest") l).Pairwise
        (fun a b => b.created_at.getD "" ≤ a.created_at.getD "")
    ∧ (∀ c : String,
        (sortLeads (some "newest") l).filter (fun x => x.created_at.getD "" == c)
          = l.filter (fun x => x.created_at.getD "" == c))
    ∧ sortLeads (some "newest") (sortLeads (some "newest") l)
        = sortLeads (some "newest") l
    ∧ (s ≠ some "newest" → sortLeads s l = l) := by
  rw [sortLeads_newest_eq_mergeSort]
  refine ⟨List.mergeSort_perm l _, ?_, ?_, ?_, ?_⟩
  · exact (List.sorted_mergeSort newestLe_trans newestLe_total l).imp
      (fun h => of_decide_eq_true h)
  · intro c
    have hmem : ∀ x ∈ l.filter (fun x => x.created_at.getD "" == c),
        x.created_at.getD "" = c := by
      intro x hx
      exact eq_of_beq (List.mem_filter.mp hx).2
    have hpw : (l.filter (fun x => x.created_at.getD "" == c)).Pairwise
        (fun a b => decide (b.created_at.getD "" ≤ a.created_at.getD "") = true) := by
      apply List.pairwise_of_forall_mem_list
      intro a ha b hb
      simp [hmem a ha, hmem b hb]
    have h1 : List.Sublist (l.filter (fun x => x.created_at.getD "" == c))
        (l.mergeSort (fun a b => decide (b.created_at.getD "" ≤ a.created_at.getD ""))) :=
      List.sublist_mergeSort newestLe_trans newestLe_total hpw (List.filter_sublist l)
    have h2 : (l.filter (fun x => x.created_at.getD "" == c)).filter
          (fun x => x.created_at.getD "" == c)
        = l.filter (fun x => x.created_at.getD "" == c) := by
      apply List.filter_eq_self.mpr
      intro x hx
      exact (List.mem_filter.mp hx).2
    have hsub := h1.filter (fun x => x.created_at.getD "" == c)
    rw [h2] at hsub
    have hlen : ((l.mergeSort
          (fun a b => decide (b.created_at.getD "" ≤ a.created_at.getD ""))).filter
            (fun x => x.created_at.getD "" == c)).length
        = (l.filter (fun x => x.created_at.getD "" == c)).length :=
      ((List.mergeSort_perm l _).filter _).length_eq
    exact (hsub.eq_of_length hlen.symm).symm
  · rw [sortLeads_newest_eq_mergeSort]
    exact List.mergeSort_of_sorted (List.sorted_mergeSort newestLe_trans newestLe_total l)
  · intro hs
    have : (s == some "newest") = false := by
      simp [hs]
    simp [sortLeads, this]

/-- Witness for the conditional part of C7: a non-"newest" directive leaves the
fetched order untouched. -/
theorem sort_newest_spec_witness :
    sortLeads none
      [{ created_at := some "2024-02-01" }, { created_at := some "2024-03-01" }]
      = [{ created_at := some "2024-02-01" }, { created_at := some "2024-03-01" }] :=
  (sort_newest_spec
    [{ created_at := some "2024-02-01" }, { created_at := some "2024-03-01" }]
    none).2.2.2.2 (by decide)

/-- C8: a profile lookup with no matching executive returns the empty
object, and a lead-detail lookup with no matching candidate returns an
absent candidate; neither fails. -/
theorem notfound_lookup_spec {τ ω : Type} (timelineData : τ) (offersData : ω) :
    get_profile none = []
    ∧ (lead_detail none timelineData offersData).candidate = none :=
  ⟨rfl, rfl⟩

/-- C9: in the simple lead list, an empty-string status and a zero
heat_min are Python-falsy, so the issued query — and hence the whole
response, for any record store — is the same as with the field absent. -/
theorem falsy_filter_params_spec (store : SimpleQuery → List CandRow)
    (eid : String) (status : Option String) (heat_min : Option Int)
    (follow_up_due : Option String) (sortParam : Option String) (today : String) :
    lead_list_get store eid (some "") heat_min follow_up_due sortParam today
      = lead_list_get store eid none heat_min follow_up_due sortParam today
    ∧ lead_list_get store eid status (some 0) follow_up_due sortParam today
      = lead_list_get store eid status none follow_up_due sortParam today := by
  constructor <;> rfl

/-- C10: when the executive-profile lookup finds no row, the manager view
handler fails on the name-field access of the absent profile instead of
producing the documented output shape, so the error branch is reachable
for a nonexistent executive id. -/
theorem manager_missing_profile_spec (leadsData : Option (List CandRow)) :
    manager_leads none leadsData
      = .error "AttributeError: NoneType has no attribute get" := rfl

end CRM
